import Mathlib

/-!
Verification of the plan-generation core of the moxie-app repository
(`utils/plan_generator.py`), against its natural-language specification.

Python runtime values reachable through the caller-supplied external
strategies mapping are embedded as the inductive `JVal` (strings, lists,
dicts).  Subscripting a value with a string key is modelled by `subscript`,
which returns `Except PyErr JVal`: a dict lacking the key yields
`PyErr.keyError`, while subscripting a non-dict with a string key yields
`PyErr.typeError`, exactly as in CPython.  The `try/except KeyError`
blocks of the source catch only `keyError`; `typeError` propagates.
-/

inductive JVal where
  | str : String → JVal
  | list : List JVal → JVal
  | dict : List (String × JVal) → JVal

abbrev PyDict := List (String × JVal)

inductive PyErr where
  | keyError
  | typeError
deriving DecidableEq

/-- Association-list lookup, the model of `d[k]` on a well-typed level. -/
def assocGet {α : Type} (l : List (String × α)) (k : String) : Option α :=
  match l.find? (fun kv => kv.1 == k) with
  | some kv => some kv.2
  | none => none

/-- Model of the Python subscript `v[k]` for a string key `k`:
`KeyError` on a dict without the key, `TypeError` on a non-dict. -/
def subscript (v : JVal) (k : String) : Except PyErr JVal :=
  match v with
  | .dict d =>
    match assocGet d k with
    | some w => .ok w
    | none => .error .keyError
  | _ => .error .typeError

/-- Python truthiness of an embedded value: empty strings, lists and
dicts are falsy; this is also the "non-empty" notion of the spec. -/
def truthy : JVal → Bool
  | .str s => !(s == "")
  | .list l => !l.isEmpty
  | .dict d => !d.isEmpty

/-- Lift a list of strings (a leaf of the hardcoded tables) to `JVal`. -/
def strListVal (l : List String) : JVal :=
  .list (l.map .str)

/-- Does `hay` start with `needle` (on character lists)? -/
def charsStartWith : List Char → List Char → Bool
  | _, [] => true
  | [], _ :: _ => false
  | h :: hs, n :: ns => h == n && charsStartWith hs ns

/-- Does `needle` occur contiguously in the haystack? -/
def charsContain (needle : List Char) : List Char → Bool
  | [] => charsStartWith [] needle
  | h :: hs => charsStartWith (h :: hs) needle || charsContain needle hs

/-- Model of the Python membership test `needle in hay` on strings. -/
def strIn (needle hay : String) : Bool :=
  charsContain needle.data hay.data

structure Milestone where
  name : String
  description : String
  timeframe : String
deriving DecidableEq

/-- The four base milestones of `generate_milestone_suggestions`,
always present and always first, in this order. -/
def basic_milestones : List Milestone :=
  [⟨"Messaging Validation",
    "Complete customer interviews and finalize messaging",
    "4 weeks before launch"⟩,
   ⟨"Content Creation Deadline",
    "Finalize all launch content and materials",
    "2 weeks before launch"⟩,
   ⟨"Launch Day",
    "Official launch date",
    "Launch day"⟩,
   ⟨"Post-Launch Analysis",
    "Analyze launch metrics and gather feedback",
    "1 week after launch"⟩]

def new_startup_milestones : List Milestone :=
  [⟨"Beta Testing",
    "Complete beta testing with early users",
    "3 weeks before launch"⟩,
   ⟨"Product Finalization",
    "Freeze features and finalize product",
    "2 weeks before launch"⟩]

def brand_repositioning_milestones : List Milestone :=
  [⟨"Brand Assets Complete",
    "Finalize all new brand assets and guidelines",
    "3 weeks before launch"⟩,
   ⟨"Team Alignment",
    "Ensure team is aligned on new positioning",
    "2 weeks before launch"⟩]

def funding_announcement_milestones : List Milestone :=
  [⟨"Press Release Draft",
    "Create first draft of funding press release",
    "3 weeks before launch"⟩,
   ⟨"Investor Coordination",
    "Finalize coordination with investors on announcement",
    "2 weeks before launch"⟩]

def partnership_milestones : List Milestone :=
  [⟨"Partnership Agreement",
    "Finalize all partnership terms and agreements",
    "3 weeks before launch"⟩,
   ⟨"Joint Marketing Plan",
    "Finalize joint marketing plan with partner",
    "2 weeks before launch"⟩]

def bootstrapping_milestones : List Milestone :=
  [⟨"Resource Allocation",
    "Finalize budget and resource allocation for launch",
    "3 weeks before launch"⟩]

def under_1m_milestones : List Milestone :=
  [⟨"Growth Metrics Setup",
    "Set up tracking for key growth metrics",
    "2 weeks before launch"⟩]

def one_to_3m_milestones : List Milestone :=
  [⟨"PR Firm Briefing",
    "Brief PR firm on launch strategy and timeline",
    "4 weeks before launch"⟩,
   ⟨"Media Outreach",
    "Begin outreach to media contacts",
    "2 weeks before launch"⟩]

def over_3m_milestones : List Milestone :=
  [⟨"Marketing Campaign Launch",
    "Launch pre-launch marketing campaign",
    "4 weeks before launch"⟩,
   ⟨"Industry Event Planning",
    "Finalize plans for launch event",
    "3 weeks before launch"⟩]

/-- The `if`/`elif` chain over `launch_type` of
`generate_milestone_suggestions` (lines 106-157 of the source). -/
def type_specific_milestones (launch_type : String) : List Milestone :=
  if strIn "New Startup/Product Launch" launch_type then new_startup_milestones
  else if strIn "Brand Repositioning" launch_type then brand_repositioning_milestones
  else if strIn "Funding Announcement" launch_type then funding_announcement_milestones
  else if strIn "Partnership" launch_type then partnership_milestones
  else []

/-- The `if`/`elif` chain over `funding_status` of
`generate_milestone_suggestions` (lines 161-202 of the source). -/
def funding_specific_milestones (funding_status : String) : List Milestone :=
  if strIn "Bootstrapping" funding_status then bootstrapping_milestones
  else if strIn "under $1M" funding_status then under_1m_milestones
  else if strIn "$1M-$3M" funding_status then one_to_3m_milestones
  else if strIn "$3M+" funding_status then over_3m_milestones
  else []

/-- Model of `generate_milestone_suggestions` of the source: base milestones,
then launch-type-specific ones, then funding-status-specific ones. -/
def generate_milestone_suggestions (launch_type funding_status : String) : List Milestone :=
  basic_milestones ++ type_specific_milestones launch_type
    ++ funding_specific_milestones funding_status

abbrev Table3 := List (String × List (String × List (String × List String)))

/-- The hardcoded `strategies` table of `get_standard_strategies`
(lines 224-387 of the source), keyed launch type → funding status →
primary goal. -/
def strategies : Table3 :=
  [("New Startup/Product Launch",
    [("Bootstrapping (No external funding)",
      [("Get Users or Customers",
        ["Focus on founder-led storytelling through guest podcasts and social content",
         "Create a limited beta program with exclusive perks to drive early adoption",
         "Build direct relationships with early users for feedback and testimonials"]),
       ("Attract Investors",
        ["Document your traction journey publicly to showcase momentum",
         "Create case studies showing early customer impact",
         "Target niche industry events where investors in your space gather"]),
       ("Build Press & Awareness",
        ["Craft a compelling founder story that ties to current trends",
         "Pitch to industry-specific publications rather than mainstream media",
         "Create shareable content that showcases your unique approach"]),
       ("Create Industry Influence",
        ["Start a focused content series solving key problems in your industry",
         "Join relevant communities as a contributor, not just a promoter",
         "Collaborate with complementary startups for wider reach"])]),
     ("Raised under $1M",
      [("Get Users or Customers",
        ["Run targeted ad experiments to identify high-converting messages",
         "Create an exclusive waitlist with referral incentives",
         "Partner with complementary products for shared launches"]),
       ("Attract Investors",
        ["Build a data-driven pitch showing early traction metrics",
         "Create investor-specific content demonstrating market understanding",
         "Get warm introductions through strategic advisory relationships"]),
       ("Build Press & Awareness",
        ["Position your funding as validation for a larger trend story",
         "Create data-driven content that journalists can easily reference",
         "Build relationships with 3-5 key reporters in your space"]),
       ("Create Industry Influence",
        ["Participate in industry panels and speaking opportunities",
         "Launch a small but high-quality thought leadership publication",
         "Create a community initiative that positions you as a connector"])]),
     ("Raised $1M-$3M",
      [("Get Users or Customers",
        ["Scale successful acquisition channels with increased ad spend",
         "Implement a full-featured referral program with tiered rewards",
         "Execute co-marketing campaigns with established partners"]),
       ("Attract Investors",
        ["Create quarterly investor updates showcasing growth metrics",
         "Secure strategic advisors who can connect you to your next round",
         "Generate press coverage highlighting your unique market position"]),
       ("Build Press & Awareness",
        ["Hire a specialized PR firm for a coordinated media campaign",
         "Create a newsworthy data report about your industry",
         "Launch a creative campaign designed for social sharing"]),
       ("Create Industry Influence",
        ["Host industry roundtables with key decision-makers",
         "Launch an authoritative content platform or podcast",
         "Create an industry index or report that becomes a reference point"])]),
     ("Raised $3M+",
      [("Get Users or Customers",
        ["Implement omnichannel marketing with consistent brand messaging",
         "Launch high-production value content series",
         "Execute high-visibility partnerships with market leaders"]),
       ("Attract Investors",
        ["Position your company as category-defining through thought leadership",
         "Host exclusive investor-focused events showcasing your vision",
         "Generate tier-one press coverage highlighting growth metrics"]),
       ("Build Press & Awareness",
        ["Execute a comprehensive PR strategy across multiple channels",
         "Create viral-optimized content campaigns with significant budget",
         "Sponsor or create signature industry events"]),
       ("Create Industry Influence",
        ["Position your CEO as an industry visionary through speaking and publishing",
         "Create a proprietary methodology or framework for your industry",
         "Launch a foundation or initiative addressing industry-wide challenges"])])]),
   ("Brand Repositioning (Rebrand or Pivot)",
    [("Bootstrapping (No external funding)",
      [("Get Users or Customers",
        ["Craft a clear narrative explaining the \x27why\x27 behind your repositioning",
         "Create before/after content showing the evolution",
         "Personally reach out to existing customers with special loyalty offers"]),
       ("Attract Investors",
        ["Frame your repositioning as strategic market adaptation",
         "Show early validation metrics from the new direction",
         "Create case studies showing the problem your new positioning solves"]),
       ("Build Press & Awareness",
        ["Pitch your pivot as a response to market insights",
         "Create visual assets that tell your transformation story",
         "Leverage customer testimonials to validate the change"]),
       ("Create Industry Influence",
        ["Document your repositioning journey as a learning resource",
         "Position the change as thought leadership on where the market is headed",
         "Host discussions around the challenges your new position addresses"])])]),
   ("Funding Announcement",
    [("Raised under $1M",
      [("Get Users or Customers",
        ["Frame your funding as validation of your customer-first approach",
         "Create special offers for customers who join during your funding momentum",
         "Use funding press to drive traffic to high-converting landing pages"]),
       ("Attract Investors",
        ["Position this round as the foundation for a bigger vision",
         "Create investor-specific content showcasing your capital efficiency",
         "Document key milestones achieved with minimal funding"]),
       ("Build Press & Awareness",
        ["Craft a funding announcement that tells a larger market story",
         "Secure quotes from investors explaining why they invested",
         "Create a funding FAQ addressing common questions"]),
       ("Create Industry Influence",
        ["Share insights about your fundraising process to help other founders",
         "Host a small event bringing together investors and industry peers",
         "Launch a thought leadership piece about your industry\x27s funding landscape"])])]),
   ("Major Partnership or Publicity Push",
    [("Bootstrapping (No external funding)",
      [("Get Users or Customers",
        ["Design partnership terms that prioritize customer acquisition",
         "Create exclusive offers for your partner\x27s audience",
         "Focus on partners with highly engaged audiences rather than size"]),
       ("Attract Investors",
        ["Structure partnerships that demonstrate market validation",
         "Secure case studies from partners highlighting your value",
         "Use partnerships to generate data points for investor pitches"]),
       ("Build Press & Awareness",
        ["Create joint press releases with compelling narrative hooks",
         "Design visual content that both partners can share",
         "Host a joint webinar or event to showcase the partnership"]),
       ("Create Industry Influence",
        ["Co-create thought leadership content with your partner",
         "Launch a joint research initiative or industry report",
         "Create a partner advisory board for ongoing collaboration"])])])]

/-- The generic default strategy list of `get_standard_strategies`
(lines 394-398 of the source). -/
def default_strategies : List String :=
  ["Create a compelling story that connects your mission to customer needs",
   "Focus on 1-2 high-impact marketing channels that align with your resources",
   "Build relationships with influencers and partners in your industry"]

/-- The hardcoded `next_steps` table of `get_standard_next_steps`
(lines 417-442 of the source), keyed funding status → audience
readiness → post-launch priority. -/
def next_steps : Table3 :=
  [("Bootstrapping (No external funding)",
    [("Yes, we have an engaged community",
      [("Scaling & repeatable traction",
        ["1. Analyze which launch channels delivered highest ROI",
         "2. Document repeatable processes for your best-performing channels",
         "3. Create a lean content calendar focused on high-conversion topics"]),
       ("Investor relations & positioning for next raise",
        ["1. Build a simple investor update template highlighting key metrics",
         "2. Identify 10-15 potential angels or micro-VCs aligned with your vision",
         "3. Create a basic pitch deck focused on traction and capital efficiency"]),
       ("Optimizing based on customer feedback",
        ["1. Implement a simple feedback collection system",
         "2. Identify the top 3 points of friction in your current experience",
         "3. Create a weekly iteration schedule focused on quick wins"]),
       ("Sustaining press & industry visibility",
        ["1. Develop a simple PR calendar with monthly goals",
         "2. Create a content repurposing system to maximize reach",
         "3. Join 3-5 communities where your audience gathers"])])])]

/-- The generic default next-step list of `get_standard_next_steps`
(lines 449-453 of the source). -/
def default_next_steps : List String :=
  ["1. Document what worked and what didn\x27t in your launch",
   "2. Focus on optimizing your best-performing channel",
   "3. Create a 30-day action plan based on initial results"]

/-- Three-level lookup in a hardcoded table; the static tables are
dicts all the way down to their list leaves, so only key absence (and
never a type confusion) is possible here. -/
def lookup3 (t : Table3) (k1 k2 k3 : String) : Option (List String) :=
  match assocGet t k1 with
  | none => none
  | some l1 =>
    match assocGet l1 k2 with
    | none => none
    | some l2 => assocGet l2 k3

/-- The three chained subscripts of the `try` block
`external_strategies[top][k1][k2][k3]` after the top-level key has been
read; any error of the chain propagates out unchanged. -/
def chain3 (root : JVal) (k1 k2 k3 : String) : Except PyErr JVal :=
  match subscript root k1 with
  | .error e => .error e
  | .ok a =>
    match subscript a k2 with
    | .error e => .error e
    | .ok b => subscript b k3

/-- The tier-1 attempt of `get_standard_strategies` and
`get_standard_next_steps`: `none` when the external mapping is absent,
falsy, or lacks the top-level key (the guard on line 216 resp. 409 of
the source); otherwise the outcome of the three-level lookup. -/
def external_lookup (ext : Option PyDict) (top k1 k2 k3 : String) :
    Option (Except PyErr JVal) :=
  match ext with
  | none => none
  | some d =>
    if d.isEmpty then none
    else
      match assocGet d top with
      | none => none
      | some root => some (chain3 root k1 k2 k3)

/-- The tier-2/tier-3 part of `get_standard_strategies`: the hardcoded
table, with the generic default on a missing path (lines 389-398). -/
def static_strategies_result (launch_type funding_status primary_goal : String) :
    List String :=
  match lookup3 strategies launch_type funding_status primary_goal with
  | some v => v
  | none => default_strategies

/-- The tier-2/tier-3 part of `get_standard_next_steps` (lines 444-453). -/
def static_next_steps_result (funding_status audience_readiness post_launch_priority : String) :
    List String :=
  match lookup3 next_steps funding_status audience_readiness post_launch_priority with
  | some v => v
  | none => default_next_steps

/-- Model of `get_standard_strategies` of the source (lines 207-398): tier-1
external lookup whose `KeyError` is caught (falling through to the
static table and default) but whose `TypeError` propagates. -/
def get_standard_strategies (launch_type funding_status primary_goal : String)
    (external_strategies : Option PyDict) : Except PyErr JVal :=
  match external_lookup external_strategies "launch_strategies"
      launch_type funding_status primary_goal with
  | some (.ok v) => .ok v
  | some (.error .typeError) => .error .typeError
  | _ => .ok (strListVal (static_strategies_result launch_type funding_status primary_goal))

/-- Model of `get_standard_next_steps` of the source (lines 400-453). -/
def get_standard_next_steps (funding_status audience_readiness post_launch_priority : String)
    (external_strategies : Option PyDict) : Except PyErr JVal :=
  match external_lookup external_strategies "next_steps"
      funding_status audience_readiness post_launch_priority with
  | some (.ok v) => .ok v
  | some (.error .typeError) => .error .typeError
  | _ => .ok (strListVal (static_next_steps_result funding_status audience_readiness post_launch_priority))

/-- Modelled from the spec: the observable outcome of one call to the
AI generation collaborator (`utils/ai_generator.py` is not part of the
source snapshot).  `success` carries the value the service returned
without raising; the other constructors are the failure modes the spec
lists (exception, timeout, malformed/unavailable response). -/
inductive AIOutcome (α : Type) where
  | success : α → AIOutcome α
  | exn : AIOutcome α
  | timeout : AIOutcome α
  | malformed : AIOutcome α

/-- Holds when one AI call makes the enhancement step fall back: the
service raised, timed out, returned malformed content, or returned an
empty (falsy) result — every outcome of the spec's failure list. -/
def AIOutcome.fallsBack : AIOutcome JVal → Bool
  | .success v => !truthy v
  | _ => true

/-- Modelled from the spec: `generate_ai_strategies(form_data,
fallback_strategies)` of the missing `utils/ai_generator.py`.  A
well-formed non-empty result replaces the fallback entirely; an
exception, timeout, malformed or empty result yields the fallback
unchanged. -/
def generate_ai_strategies (outcome : AIOutcome JVal) (fallback_strategies : JVal) : JVal :=
  match outcome with
  | .success v => if truthy v then v else fallback_strategies
  | _ => fallback_strategies

/-- Modelled from the spec: `generate_ai_next_steps(form_data,
fallback_steps)` of the missing `utils/ai_generator.py`; same
contract as `generate_ai_strategies`. -/
def generate_ai_next_steps (outcome : AIOutcome JVal) (fallback_steps : JVal) : JVal :=
  match outcome with
  | .success v => if truthy v then v else fallback_steps
  | _ => fallback_steps

/-- Modelled from the spec: `generate_ai_messaging_advice(messaging_tested)`
of the missing `utils/ai_generator.py`, with its internal canned
fallback sentences (keyed on `messaging_tested`) abstracted as the
function argument `canned`. -/
def generate_ai_messaging_advice (canned : String → String)
    (outcome : AIOutcome String) (messaging_tested : String) : String :=
  match outcome with
  | .success s => if s == "" then canned messaging_tested else s
  | _ => canned messaging_tested

/-- The `form_data` record consumed by `generate_launch_plan`; field
names follow the dict keys of the source. -/
structure FormData where
  first_name : String
  startup_name : String
  email : String
  messaging_tested : String
  launch_type : String
  funding_status : String
  primary_goal : String
  audience_readiness : String
  post_launch_priority : String
  industry : Option String

structure LaunchSummary where
  launch_type : String
  funding_status : String
  primary_goal : String

/-- The plan dict returned by `generate_launch_plan` (lines 53-65). -/
structure Plan where
  first_name : String
  startup_name : String
  messaging_advice : String
  launch_summary : LaunchSummary
  recommended_strategies : JVal
  next_steps : JVal
  milestone_suggestions : List Milestone

/-- Model of `generate_launch_plan` of the source (lines 9-67).  The outcomes of
the three AI collaborator calls are passed explicitly, as is the canned
messaging fallback of the spec-modelled `generate_ai_messaging_advice`;
an uncaught exception from either standard lookup propagates as
`Except.error`, exactly as in the Python. -/
def generate_launch_plan (form_data : FormData) (external_strategies : Option PyDict)
    (canned : String → String) (ai_messaging : AIOutcome String)
    (ai_strategies : AIOutcome JVal) (ai_steps : AIOutcome JVal) : Except PyErr Plan :=
  let messaging_advice := generate_ai_messaging_advice canned ai_messaging form_data.messaging_tested
  match get_standard_strategies form_data.launch_type form_data.funding_status
      form_data.primary_goal external_strategies with
  | .error e => .error e
  | .ok standard_strategies =>
    let recommended_strategies := generate_ai_strategies ai_strategies standard_strategies
    match get_standard_next_steps form_data.funding_status form_data.audience_readiness
        form_data.post_launch_priority external_strategies with
    | .error e => .error e
    | .ok standard_next_steps =>
      let plan_next_steps := generate_ai_next_steps ai_steps standard_next_steps
      let milestone_suggestions := generate_milestone_suggestions
        form_data.launch_type form_data.funding_status
      .ok ⟨form_data.first_name, form_data.startup_name, messaging_advice,
        ⟨form_data.launch_type, form_data.funding_status, form_data.primary_goal⟩,
        recommended_strategies, plan_next_steps, milestone_suggestions⟩

/-- Holds when `v` is a dict all of whose values satisfy `p`. -/
def dictAll (p : JVal → Bool) : JVal → Bool
  | .dict d => d.all (fun kv => p kv.2)
  | _ => false

/-- Like `dictAll`, but vacuously true on non-dicts (subscripting a
non-dict raises and therefore never reaches a leaf). -/
def dictAllOr (p : JVal → Bool) : JVal → Bool
  | .dict d => d.all (fun kv => p kv.2)
  | _ => true

/-- A mapping whose values may be anything: one safe subscript level. -/
def wellShaped1 : JVal → Bool := dictAll (fun _ => true)

/-- A mapping of mappings: two safe subscript levels. -/
def wellShaped2 : JVal → Bool := dictAll wellShaped1

/-- A three-level nested mapping, the shape the spec prescribes for the
external override tables: three safe subscript levels. -/
def wellShaped3 : JVal → Bool := dictAll wellShaped2

/-- Every leaf reachable by one subscript is truthy (non-empty). -/
def leaves1 : JVal → Bool := dictAllOr truthy

/-- Every leaf reachable by two subscripts is truthy. -/
def leaves2 : JVal → Bool := dictAllOr leaves1

/-- Every leaf reachable by three subscripts is truthy. -/
def leaves3 : JVal → Bool := dictAllOr leaves2

/-- One side (`launch_strategies` or `next_steps`) of the external
mapping satisfies `p`, whenever that top-level key is present at all. -/
def ext_side (p : JVal → Bool) (ext : Option PyDict) (top : String) : Bool :=
  match ext with
  | none => true
  | some d =>
    match assocGet d top with
    | some root => p root
    | none => true

theorem assocGet_mem {α : Type} {l : List (String × α)} {k : String} {v : α}
    (h : assocGet l k = some v) : ∃ kv, kv ∈ l ∧ kv.2 = v := by
  unfold assocGet at h
  cases hf : List.find? (fun kv => kv.1 == k) l with
  | none => rw [hf] at h; cases h
  | some kv =>
    rw [hf] at h
    cases h
    exact ⟨kv, List.mem_of_find?_eq_some hf, rfl⟩

theorem assocGet_isSome_of_ne_nil {α : Type} {l : List (String × α)} {k : String} {v : α}
    (h : assocGet l k = some v) : l.isEmpty = false := by
  obtain ⟨kv, hmem, _⟩ := assocGet_mem h
  cases l with
  | nil => cases hmem
  | cons x xs => rfl

theorem subscript_ok {v w : JVal} {k : String} (h : subscript v k = Except.ok w) :
    ∃ d, v = JVal.dict d ∧ ∃ kv, kv ∈ d ∧ kv.2 = w := by
  cases v with
  | str s => exact absurd h (by simp [subscript])
  | list l => exact absurd h (by simp [subscript])
  | dict d =>
    refine ⟨d, rfl, ?_⟩
    simp only [subscript] at h
    cases hg : assocGet d k with
    | none => simp only [hg] at h; cases h
    | some u =>
      simp only [hg] at h
      cases h
      exact assocGet_mem hg

theorem subscript_dict_ne_typeError (d : PyDict) (k : String) :
    subscript (JVal.dict d) k ≠ Except.error PyErr.typeError := by
  simp only [subscript]
  cases hg : assocGet d k <;> simp [hg]

theorem dictAll_dict {p : JVal → Bool} {v : JVal} (h : dictAll p v = true) :
    ∃ d, v = JVal.dict d ∧ ∀ kv ∈ d, p kv.2 = true := by
  cases v with
  | str s => exact absurd h (by simp [dictAll])
  | list l => exact absurd h (by simp [dictAll])
  | dict d =>
    refine ⟨d, rfl, ?_⟩
    unfold dictAll at h
    rw [List.all_eq_true] at h
    exact h

theorem dictAllOr_subscript {p : JVal → Bool} {v w : JVal} {k : String}
    (hp : dictAllOr p v = true) (h : subscript v k = Except.ok w) : p w = true := by
  obtain ⟨d, rfl, kv, hmem, hkv⟩ := subscript_ok h
  unfold dictAllOr at hp
  rw [List.all_eq_true] at hp
  exact hkv ▸ hp kv hmem

theorem dictAll_subscript {p : JVal → Bool} {v w : JVal} {k : String}
    (hp : dictAll p v = true) (h : subscript v k = Except.ok w) : p w = true := by
  obtain ⟨d, rfl, kv, hmem, hkv⟩ := subscript_ok h
  unfold dictAll at hp
  rw [List.all_eq_true] at hp
  exact hkv ▸ hp kv hmem

theorem chain3_ne_typeError {root : JVal} (h : wellShaped3 root = true) (k1 k2 k3 : String) :
    chain3 root k1 k2 k3 ≠ Except.error PyErr.typeError := by
  obtain ⟨d, rfl, hall⟩ := dictAll_dict h
  unfold chain3
  cases h1 : subscript (JVal.dict d) k1 with
  | error e =>
    cases e
    · simp
    · exact absurd h1 (subscript_dict_ne_typeError d k1)
  | ok a =>
    have ha : wellShaped2 a = true := dictAll_subscript h h1
    obtain ⟨d2, ha2, hall2⟩ := dictAll_dict ha
    subst ha2
    cases h2 : subscript (JVal.dict d2) k2 with
    | error e =>
      cases e
      · simp [h2]
      · exact absurd h2 (subscript_dict_ne_typeError d2 k2)
    | ok b =>
      have hb : wellShaped1 b = true := dictAll_subscript ha h2
      obtain ⟨d3, hb3, _⟩ := dictAll_dict hb
      subst hb3
      simp only [h2]
      exact subscript_dict_ne_typeError d3 k3

theorem chain3_ok_truthy {root v : JVal} {k1 k2 k3 : String}
    (h : leaves3 root = true) (hc : chain3 root k1 k2 k3 = Except.ok v) :
    truthy v = true := by
  unfold chain3 at hc
  cases h1 : subscript root k1 with
  | error e => simp only [h1] at hc; cases hc
  | ok a =>
    simp only [h1] at hc
    have ha : leaves2 a = true := dictAllOr_subscript h h1
    cases h2 : subscript a k2 with
    | error e => simp only [h2] at hc; cases hc
    | ok b =>
      simp only [h2] at hc
      have hb : leaves1 b = true := dictAllOr_subscript ha h2
      exact dictAllOr_subscript hb hc

theorem lookup3_mem {t : Table3} {k1 k2 k3 : String} {v : List String}
    (h : lookup3 t k1 k2 k3 = some v) :
    ∃ e1, e1 ∈ t ∧ ∃ e2, e2 ∈ e1.2 ∧ ∃ e3, e3 ∈ e2.2 ∧ e3.2 = v := by
  unfold lookup3 at h
  cases h1 : assocGet t k1 with
  | none => simp only [h1] at h; cases h
  | some l1 =>
    simp only [h1] at h
    cases h2 : assocGet l1 k2 with
    | none => simp only [h2] at h; cases h
    | some l2 =>
      simp only [h2] at h
      obtain ⟨e1, he1, he1v⟩ := assocGet_mem h1
      obtain ⟨e2, he2, he2v⟩ := assocGet_mem h2
      obtain ⟨e3, he3, he3v⟩ := assocGet_mem h
      exact ⟨e1, he1, e2, by rw [he1v]; exact he2, e3, by rw [he2v]; exact he3, he3v⟩

theorem all3_nonempty_lookup {t : Table3} {k1 k2 k3 : String} {v : List String}
    (hall : t.all (fun e1 => e1.2.all (fun e2 => e2.2.all (fun e3 => !e3.2.isEmpty))) = true)
    (h : lookup3 t k1 k2 k3 = some v) : v.isEmpty = false := by
  simp only [List.all_eq_true, Bool.not_eq_true'] at hall
  obtain ⟨e1, he1, e2, he2, e3, he3, hv⟩ := lookup3_mem h
  rw [← hv]
  exact hall e1 he1 e2 he2 e3 he3

theorem strategies_leaves_nonempty :
    (strategies.all (fun e1 => e1.2.all (fun e2 => e2.2.all (fun e3 => !e3.2.isEmpty)))) = true := by
  rfl

theorem next_steps_leaves_nonempty :
    (next_steps.all (fun e1 => e1.2.all (fun e2 => e2.2.all (fun e3 => !e3.2.isEmpty)))) = true := by
  rfl

theorem static_strategies_result_nonempty (launch_type funding_status primary_goal : String) :
    (static_strategies_result launch_type funding_status primary_goal).isEmpty = false := by
  unfold static_strategies_result
  cases h : lookup3 strategies launch_type funding_status primary_goal with
  | none => rfl
  | some v => exact all3_nonempty_lookup strategies_leaves_nonempty h

theorem static_next_steps_result_nonempty (funding_status audience_readiness post_launch_priority : String) :
    (static_next_steps_result funding_status audience_readiness post_launch_priority).isEmpty = false := by
  unfold static_next_steps_result
  cases h : lookup3 next_steps funding_status audience_readiness post_launch_priority with
  | none => rfl
  | some v => exact all3_nonempty_lookup next_steps_leaves_nonempty h

theorem truthy_strListVal (l : List String) : truthy (strListVal l) = !l.isEmpty := by
  cases l <;> rfl

theorem generate_ai_strategies_fallsBack {o : AIOutcome JVal} (h : o.fallsBack = true)
    (fb : JVal) : generate_ai_strategies o fb = fb := by
  cases o with
  | success v =>
    have hv : truthy v = false := by simpa [AIOutcome.fallsBack] using h
    simp [generate_ai_strategies, hv]
  | exn => rfl
  | timeout => rfl
  | malformed => rfl

theorem generate_ai_next_steps_fallsBack {o : AIOutcome JVal} (h : o.fallsBack = true)
    (fb : JVal) : generate_ai_next_steps o fb = fb := by
  cases o with
  | success v =>
    have hv : truthy v = false := by simpa [AIOutcome.fallsBack] using h
    simp [generate_ai_next_steps, hv]
  | exn => rfl
  | timeout => rfl
  | malformed => rfl

theorem generate_ai_strategies_truthy {o : AIOutcome JVal} {fb : JVal} (h : truthy fb = true) :
    truthy (generate_ai_strategies o fb) = true := by
  cases o with
  | success v =>
    unfold generate_ai_strategies
    cases hv : truthy v with
    | true => simp [hv]
    | false => simp [hv, h]
  | exn => exact h
  | timeout => exact h
  | malformed => exact h

theorem generate_ai_next_steps_truthy {o : AIOutcome JVal} {fb : JVal} (h : truthy fb = true) :
    truthy (generate_ai_next_steps o fb) = true := by
  cases o with
  | success v =>
    unfold generate_ai_next_steps
    cases hv : truthy v with
    | true => simp [hv]
    | false => simp [hv, h]
  | exn => exact h
  | timeout => exact h
  | malformed => exact h

theorem external_lookup_ne_typeError {ext : Option PyDict} {top : String}
    (h : ext_side wellShaped3 ext top = true) (k1 k2 k3 : String) :
    external_lookup ext top k1 k2 k3 ≠ some (Except.error PyErr.typeError) := by
  unfold external_lookup
  cases ext with
  | none => simp
  | some d =>
    simp only [ext_side] at h
    cases hemp : d.isEmpty with
    | true => simp [hemp]
    | false =>
      cases hg : assocGet d top with
      | none => simp [hemp, hg]
      | some root =>
        simp only [hg] at h
        simp [hemp, hg]
        exact chain3_ne_typeError h k1 k2 k3

theorem external_lookup_ok_truthy {ext : Option PyDict} {top k1 k2 k3 : String} {v : JVal}
    (h : ext_side leaves3 ext top = true)
    (hE : external_lookup ext top k1 k2 k3 = some (Except.ok v)) : truthy v = true := by
  unfold external_lookup at hE
  cases ext with
  | none => cases hE
  | some d =>
    simp only [ext_side] at h
    cases hemp : d.isEmpty with
    | true => simp [hemp] at hE
    | false =>
      cases hg : assocGet d top with
      | none => simp [hemp, hg] at hE
      | some root =>
        simp only [hg] at h
        simp [hemp, hg] at hE
        exact chain3_ok_truthy h hE

theorem get_standard_strategies_isOk (launch_type funding_status primary_goal : String)
    (ext : Option PyDict) (h : ext_side wellShaped3 ext "launch_strategies" = true) :
    ∃ v, get_standard_strategies launch_type funding_status primary_goal ext = Except.ok v := by
  unfold get_standard_strategies
  cases hE : external_lookup ext "launch_strategies" launch_type funding_status primary_goal with
  | none =>
    exact ⟨strListVal (static_strategies_result launch_type funding_status primary_goal), by simp [hE]⟩
  | some r =>
    cases r with
    | ok v => exact ⟨v, by simp [hE]⟩
    | error e =>
      cases e with
      | keyError =>
        exact ⟨strListVal (static_strategies_result launch_type funding_status primary_goal), by simp [hE]⟩
      | typeError =>
        exact absurd hE (external_lookup_ne_typeError h launch_type funding_status primary_goal)

theorem get_standard_next_steps_isOk (funding_status audience_readiness post_launch_priority : String)
    (ext : Option PyDict) (h : ext_side wellShaped3 ext "next_steps" = true) :
    ∃ v, get_standard_next_steps funding_status audience_readiness post_launch_priority ext = Except.ok v := by
  unfold get_standard_next_steps
  cases hE : external_lookup ext "next_steps" funding_status audience_readiness post_launch_priority with
  | none =>
    exact ⟨strListVal (static_next_steps_result funding_status audience_readiness post_launch_priority), by simp [hE]⟩
  | some r =>
    cases r with
    | ok v => exact ⟨v, by simp [hE]⟩
    | error e =>
      cases e with
      | keyError =>
        exact ⟨strListVal (static_next_steps_result funding_status audience_readiness post_launch_priority), by simp [hE]⟩
      | typeError =>
        exact absurd hE (external_lookup_ne_typeError h funding_status audience_readiness post_launch_priority)

theorem get_standard_strategies_fallthrough (launch_type funding_status primary_goal : String)
    (ext : Option PyDict)
    (h : external_lookup ext "launch_strategies" launch_type funding_status primary_goal = none ∨
         external_lookup ext "launch_strategies" launch_type funding_status primary_goal =
           some (Except.error PyErr.keyError)) :
    get_standard_strategies launch_type funding_status primary_goal ext =
      Except.ok (strListVal (static_strategies_result launch_type funding_status primary_goal)) := by
  unfold get_standard_strategies
  rcases h with h | h <;> simp [h]

theorem get_standard_next_steps_fallthrough (funding_status audience_readiness post_launch_priority : String)
    (ext : Option PyDict)
    (h : external_lookup ext "next_steps" funding_status audience_readiness post_launch_priority = none ∨
         external_lookup ext "next_steps" funding_status audience_readiness post_launch_priority =
           some (Except.error PyErr.keyError)) :
    get_standard_next_steps funding_status audience_readiness post_launch_priority ext =
      Except.ok (strListVal (static_next_steps_result funding_status audience_readiness post_launch_priority)) := by
  unfold get_standard_next_steps
  rcases h with h | h <;> simp [h]

theorem get_standard_strategies_ok_truthy {launch_type funding_status primary_goal : String}
    {ext : Option PyDict} {v : JVal}
    (h : ext_side leaves3 ext "launch_strategies" = true)
    (hr : get_standard_strategies launch_type funding_status primary_goal ext = Except.ok v) :
    truthy v = true := by
  unfold get_standard_strategies at hr
  cases hE : external_lookup ext "launch_strategies" launch_type funding_status primary_goal with
  | none =>
    simp only [hE] at hr
    cases hr
    rw [truthy_strListVal, static_strategies_result_nonempty]
    rfl
  | some r =>
    cases r with
    | ok u =>
      simp only [hE] at hr
      cases hr
      exact external_lookup_ok_truthy h hE
    | error e =>
      cases e with
      | keyError =>
        simp only [hE] at hr
        cases hr
        rw [truthy_strListVal, static_strategies_result_nonempty]
        rfl
      | typeError => simp only [hE] at hr; cases hr

theorem get_standard_next_steps_ok_truthy {funding_status audience_readiness post_launch_priority : String}
    {ext : Option PyDict} {v : JVal}
    (h : ext_side leaves3 ext "next_steps" = true)
    (hr : get_standard_next_steps funding_status audience_readiness post_launch_priority ext = Except.ok v) :
    truthy v = true := by
  unfold get_standard_next_steps at hr
  cases hE : external_lookup ext "next_steps" funding_status audience_readiness post_launch_priority with
  | none =>
    simp only [hE] at hr
    cases hr
    rw [truthy_strListVal, static_next_steps_result_nonempty]
    rfl
  | some r =>
    cases r with
    | ok u =>
      simp only [hE] at hr
      cases hr
      exact external_lookup_ok_truthy h hE
    | error e =>
      cases e with
      | keyError =>
        simp only [hE] at hr
        cases hr
        rw [truthy_strListVal, static_next_steps_result_nonempty]
        rfl
      | typeError => simp only [hE] at hr; cases hr

/-- C6: for every launch_type and funding_status string,
`generate_milestone_suggestions` returns at least 4 milestones, and the
first four are Messaging Validation, Content Creation Deadline, Launch
Day and Post-Launch Analysis, in this order. -/
theorem milestones_base_always_first (launch_type funding_status : String) :
    4 ≤ (generate_milestone_suggestions launch_type funding_status).length ∧
    ((generate_milestone_suggestions launch_type funding_status).take 4).map Milestone.name =
      ["Messaging Validation", "Content Creation Deadline", "Launch Day", "Post-Launch Analysis"] := by
  constructor
  · simp only [generate_milestone_suggestions, List.length_append, basic_milestones,
      List.length_cons, List.length_nil]
    omega
  · rfl

/-- C7: the milestone list is exactly the concatenation of the fixed
base sequence, the launch-type-specific milestones and the
funding-status-specific milestones, in that order, with no
de-duplication or re-sorting; a launch_type or funding_status matching
none of its marker substrings contributes nothing and causes no error. -/
theorem milestones_concatenation (launch_type funding_status : String) :
    generate_milestone_suggestions launch_type funding_status =
      basic_milestones ++ type_specific_milestones launch_type
        ++ funding_specific_milestones funding_status ∧
    ((strIn "New Startup/Product Launch" launch_type || strIn "Brand Repositioning" launch_type ||
      strIn "Funding Announcement" launch_type || strIn "Partnership" launch_type) = false →
      type_specific_milestones launch_type = []) ∧
    ((strIn "Bootstrapping" funding_status || strIn "under $1M" funding_status ||
      strIn "$1M-$3M" funding_status || strIn "$3M+" funding_status) = false →
      funding_specific_milestones funding_status = []) := by
  refine ⟨rfl, ?_, ?_⟩
  · intro h
    simp only [Bool.or_eq_false_iff] at h
    obtain ⟨⟨⟨h1, h2⟩, h3⟩, h4⟩ := h
    simp [type_specific_milestones, h1, h2, h3, h4]
  · intro h
    simp only [Bool.or_eq_false_iff] at h
    obtain ⟨⟨⟨h1, h2⟩, h3⟩, h4⟩ := h
    simp [funding_specific_milestones, h1, h2, h3, h4]

theorem milestones_concatenation_witness :
    type_specific_milestones "Other" = [] ∧ funding_specific_milestones "Other" = [] :=
  ⟨(milestones_concatenation "Other" "Other").2.1 (by decide),
   (milestones_concatenation "Other" "Other").2.2 (by decide)⟩

/-- C10: the launch-type and funding-status categories are tested in a
fixed order and only the first matching category contributes its
milestones, even when the input string contains several marker
substrings. -/
theorem milestone_first_match_wins (launch_type funding_status : String) :
    (strIn "New Startup/Product Launch" launch_type = true →
      generate_milestone_suggestions launch_type funding_status =
        basic_milestones ++ new_startup_milestones ++ funding_specific_milestones funding_status) ∧
    (strIn "New Startup/Product Launch" launch_type = false →
      strIn "Brand Repositioning" launch_type = true →
      type_specific_milestones launch_type = brand_repositioning_milestones) ∧
    (strIn "New Startup/Product Launch" launch_type = false →
      strIn "Brand Repositioning" launch_type = false →
      strIn "Funding Announcement" launch_type = true →
      type_specific_milestones launch_type = funding_announcement_milestones) ∧
    (strIn "New Startup/Product Launch" launch_type = false →
      strIn "Brand Repositioning" launch_type = false →
      strIn "Funding Announcement" launch_type = false →
      strIn "Partnership" launch_type = true →
      type_specific_milestones launch_type = partnership_milestones) ∧
    (strIn "Bootstrapping" funding_status = true →
      funding_specific_milestones funding_status = bootstrapping_milestones) ∧
    (strIn "Bootstrapping" funding_status = false →
      strIn "under $1M" funding_status = true →
      funding_specific_milestones funding_status = under_1m_milestones) ∧
    (strIn "Bootstrapping" funding_status = false →
      strIn "under $1M" funding_status = false →
      strIn "$1M-$3M" funding_status = true →
      funding_specific_milestones funding_status = one_to_3m_milestones) ∧
    (strIn "Bootstrapping" funding_status = false →
      strIn "under $1M" funding_status = false →
      strIn "$1M-$3M" funding_status = false →
      strIn "$3M+" funding_status = true →
      funding_specific_milestones funding_status = over_3m_milestones) := by
  refine ⟨?_, ?_, ?_, ?_, ?_, ?_, ?_, ?_⟩ <;> intros <;>
    simp_all [generate_milestone_suggestions, type_specific_milestones, funding_specific_milestones]

theorem milestone_first_match_wins_witness :
    generate_milestone_suggestions "New Startup/Product Launch with Brand Repositioning"
        "Bootstrapping and Raised $3M+" =
      basic_milestones ++ new_startup_milestones
        ++ funding_specific_milestones "Bootstrapping and Raised $3M+" ∧
    funding_specific_milestones "Bootstrapping and Raised $3M+" = bootstrapping_milestones :=
  ⟨(milestone_first_match_wins "New Startup/Product Launch with Brand Repositioning"
      "Bootstrapping and Raised $3M+").1 (by decide),
   (milestone_first_match_wins "New Startup/Product Launch with Brand Repositioning"
      "Bootstrapping and Raised $3M+").2.2.2.2.1 (by decide)⟩

/-- C8: with no external override, the scenario
(New Startup/Product Launch, Bootstrapping, Get Users or Customers)
resolves to the three founder-led-storytelling strategies of the static
table, in their defined order. -/
theorem founder_storytelling_scenario :
    get_standard_strategies "New Startup/Product Launch" "Bootstrapping (No external funding)"
      "Get Users or Customers" none =
    Except.ok (strListVal
      ["Focus on founder-led storytelling through guest podcasts and social content",
       "Create a limited beta program with exclusive perks to drive early adoption",
       "Build direct relationships with early users for feedback and testimonials"]) := rfl

/-- C1: a three-level key path present in the caller-supplied external
mapping under `launch_strategies` is returned as-is, taking precedence
over the static table and the default. -/
theorem external_override_takes_precedence (launch_type funding_status primary_goal : String)
    (d : PyDict) (root a b v : JVal)
    (hroot : assocGet d "launch_strategies" = some root)
    (h1 : subscript root launch_type = Except.ok a)
    (h2 : subscript a funding_status = Except.ok b)
    (h3 : subscript b primary_goal = Except.ok v) :
    get_standard_strategies launch_type funding_status primary_goal (some d) = Except.ok v := by
  have hne : d.isEmpty = false := assocGet_isSome_of_ne_nil hroot
  simp [get_standard_strategies, external_lookup, chain3, hne, hroot, h1, h2, h3]

theorem external_override_takes_precedence_witness :
    get_standard_strategies "New Startup/Product Launch" "Bootstrapping (No external funding)"
      "Get Users or Customers"
      (some [("launch_strategies", JVal.dict [("New Startup/Product Launch",
        JVal.dict [("Bootstrapping (No external funding)",
          JVal.dict [("Get Users or Customers",
            strListVal ["Override: run a private launch dinner"])])])])]) =
    Except.ok (strListVal ["Override: run a private launch dinner"]) :=
  external_override_takes_precedence "New Startup/Product Launch"
    "Bootstrapping (No external funding)" "Get Users or Customers"
    [("launch_strategies", JVal.dict [("New Startup/Product Launch",
      JVal.dict [("Bootstrapping (No external funding)",
        JVal.dict [("Get Users or Customers",
          strListVal ["Override: run a private launch dinner"])])])])]
    (JVal.dict [("New Startup/Product Launch",
      JVal.dict [("Bootstrapping (No external funding)",
        JVal.dict [("Get Users or Customers",
          strListVal ["Override: run a private launch dinner"])])])])
    (JVal.dict [("Bootstrapping (No external funding)",
      JVal.dict [("Get Users or Customers",
        strListVal ["Override: run a private launch dinner"])])])
    (JVal.dict [("Get Users or Customers",
      strListVal ["Override: run a private launch dinner"])])
    (strListVal ["Override: run a private launch dinner"])
    rfl rfl rfl rfl

/-- C3: when the full three-level path is absent from both the external
mapping and the static table, `get_standard_strategies` returns the
fixed 3-item generic default list. -/
theorem generic_default_when_both_tiers_miss (launch_type funding_status primary_goal : String)
    (ext : Option PyDict)
    (hext : external_lookup ext "launch_strategies" launch_type funding_status primary_goal = none ∨
            external_lookup ext "launch_strategies" launch_type funding_status primary_goal =
              some (Except.error PyErr.keyError))
    (hstatic : lookup3 strategies launch_type funding_status primary_goal = none) :
    get_standard_strategies launch_type funding_status primary_goal ext =
      Except.ok (strListVal default_strategies) := by
  rw [get_standard_strategies_fallthrough launch_type funding_status primary_goal ext hext]
  simp [static_strategies_result, hstatic]

theorem generic_default_when_both_tiers_miss_witness :
    get_standard_strategies "Brand Repositioning (Rebrand or Pivot)" "Raised $3M+"
      "Get Users or Customers" none = Except.ok (strListVal default_strategies) :=
  generic_default_when_both_tiers_miss "Brand Repositioning (Rebrand or Pivot)" "Raised $3M+"
    "Get Users or Customers" none (Or.inl rfl) rfl

/-- C2 counterexample: a caller-supplied external mapping whose value
under `launch_strategies` is not a mapping makes
`get_standard_strategies` raise `TypeError` — the source catches only
`KeyError`, so "never raises, for all shapes" is false. -/
theorem standard_lookup_raises_typeError :
    get_standard_strategies "New Startup/Product Launch" "Bootstrapping (No external funding)"
      "Get Users or Customers" (some [("launch_strategies", JVal.str "not a mapping")]) =
    Except.error PyErr.typeError := rfl

/-- C2 as amended: when every node of the external tables is a mapping
down to the three-key depth (the shape the spec prescribes), both
lookup functions never raise — a missing key at any level, the
outermost included, falls through to the static tier and its default. -/
theorem standard_lookups_never_raise
    (launch_type funding_status primary_goal audience_readiness post_launch_priority : String)
    (ext : Option PyDict)
    (hs : ext_side wellShaped3 ext "launch_strategies" = true)
    (hn : ext_side wellShaped3 ext "next_steps" = true) :
    (∃ v, get_standard_strategies launch_type funding_status primary_goal ext = Except.ok v) ∧
    (∃ v, get_standard_next_steps funding_status audience_readiness post_launch_priority ext =
      Except.ok v) ∧
    (external_lookup ext "launch_strategies" launch_type funding_status primary_goal = none ∨
     external_lookup ext "launch_strategies" launch_type funding_status primary_goal =
       some (Except.error PyErr.keyError) →
      get_standard_strategies launch_type funding_status primary_goal ext =
        Except.ok (strListVal (static_strategies_result launch_type funding_status primary_goal))) ∧
    (external_lookup ext "next_steps" funding_status audience_readiness post_launch_priority = none ∨
     external_lookup ext "next_steps" funding_status audience_readiness post_launch_priority =
       some (Except.error PyErr.keyError) →
      get_standard_next_steps funding_status audience_readiness post_launch_priority ext =
        Except.ok (strListVal (static_next_steps_result funding_status audience_readiness post_launch_priority))) :=
  ⟨get_standard_strategies_isOk launch_type funding_status primary_goal ext hs,
   get_standard_next_steps_isOk funding_status audience_readiness post_launch_priority ext hn,
   get_standard_strategies_fallthrough launch_type funding_status primary_goal ext,
   get_standard_next_steps_fallthrough funding_status audience_readiness post_launch_priority ext⟩

/-- A partial, well-shaped external mapping: three nested mapping
levels under `launch_strategies`, but none of the keys a demo query
asks for; `next_steps` absent altogether. -/
def demo_partial_ext : PyDict :=
  [("launch_strategies", JVal.dict [("X", JVal.dict [("Y", JVal.dict [("Z", strListVal ["w"])])])])]

theorem standard_lookups_never_raise_witness :
    (∃ v, get_standard_strategies "A" "B" "C" (some demo_partial_ext) = Except.ok v) ∧
    (∃ v, get_standard_next_steps "B" "R" "P" (some demo_partial_ext) = Except.ok v) ∧
    (external_lookup (some demo_partial_ext) "launch_strategies" "A" "B" "C" = none ∨
     external_lookup (some demo_partial_ext) "launch_strategies" "A" "B" "C" =
       some (Except.error PyErr.keyError) →
      get_standard_strategies "A" "B" "C" (some demo_partial_ext) =
        Except.ok (strListVal (static_strategies_result "A" "B" "C"))) ∧
    (external_lookup (some demo_partial_ext) "next_steps" "B" "R" "P" = none ∨
     external_lookup (some demo_partial_ext) "next_steps" "B" "R" "P" =
       some (Except.error PyErr.keyError) →
      get_standard_next_steps "B" "R" "P" (some demo_partial_ext) =
        Except.ok (strListVal (static_next_steps_result "B" "R" "P"))) :=
  standard_lookups_never_raise "A" "B" "C" "R" "P" (some demo_partial_ext) rfl rfl

/-- A fixed form whose categorical selections match no static table
entry and no milestone marker. -/
def demo_form : FormData :=
  ⟨"A", "B", "a@b.c", "No", "LT", "FS", "PG", "AR", "PP", none⟩

/-- The plan `generate_launch_plan` produces for `demo_form` with no
external mapping and every AI call failing. -/
def demo_plan : Plan :=
  ⟨"A", "B", "advice", ⟨"LT", "FS", "PG"⟩,
   strListVal default_strategies, strListVal default_next_steps, basic_milestones⟩

/-- C4: whenever the AI collaborator fails — it raises, times out,
returns malformed content, or returns an empty result — the
enhancement step returns the supplied fallback unchanged, and the
assembled plan carries exactly the results of
`get_standard_strategies` and `get_standard_next_steps`; the failure
is never surfaced to the caller of `generate_launch_plan`. -/
theorem ai_failure_returns_fallback (form_data : FormData) (ext : Option PyDict)
    (canned : String → String) (ai_messaging : AIOutcome String)
    (ai_strategies ai_steps : AIOutcome JVal) (p : Plan)
    (h_str : ai_strategies.fallsBack = true) (h_steps : ai_steps.fallsBack = true)
    (hp : generate_launch_plan form_data ext canned ai_messaging ai_strategies ai_steps =
      Except.ok p) :
    (∀ fallback : JVal, generate_ai_strategies ai_strategies fallback = fallback) ∧
    (∀ fallback : JVal, generate_ai_next_steps ai_steps fallback = fallback) ∧
    get_standard_strategies form_data.launch_type form_data.funding_status
      form_data.primary_goal ext = Except.ok p.recommended_strategies ∧
    get_standard_next_steps form_data.funding_status form_data.audience_readiness
      form_data.post_launch_priority ext = Except.ok p.next_steps := by
  refine ⟨generate_ai_strategies_fallsBack h_str, generate_ai_next_steps_fallsBack h_steps, ?_⟩
  unfold generate_launch_plan at hp
  cases hgs : get_standard_strategies form_data.launch_type form_data.funding_status
      form_data.primary_goal ext with
  | error e => simp only [hgs] at hp; cases hp
  | ok v =>
    simp only [hgs] at hp
    cases hgn : get_standard_next_steps form_data.funding_status form_data.audience_readiness
        form_data.post_launch_priority ext with
    | error e => simp only [hgn] at hp; cases hp
    | ok w =>
      simp only [hgn] at hp
      cases hp
      simp [generate_ai_strategies_fallsBack h_str, generate_ai_next_steps_fallsBack h_steps]

theorem ai_failure_returns_fallback_witness :
    (∀ fallback : JVal,
      generate_ai_strategies (AIOutcome.success (JVal.list [])) fallback = fallback) ∧
    (∀ fallback : JVal, generate_ai_next_steps AIOutcome.timeout fallback = fallback) ∧
    get_standard_strategies "LT" "FS" "PG" none = Except.ok demo_plan.recommended_strategies ∧
    get_standard_next_steps "FS" "AR" "PP" none = Except.ok demo_plan.next_steps :=
  ai_failure_returns_fallback demo_form none (fun _ => "advice") AIOutcome.exn
    (AIOutcome.success (JVal.list [])) AIOutcome.timeout demo_plan rfl rfl rfl

/-- An external mapping that supplies an empty list as the leaf for the
demo form's key path. -/
def demo_empty_leaf_ext : PyDict :=
  [("launch_strategies", JVal.dict [("LT", JVal.dict [("FS", JVal.dict [("PG", JVal.list [])])])])]

/-- C5 counterexample: with an external mapping whose matched leaf is
the empty list, `generate_launch_plan` returns a plan whose
`recommended_strategies` is empty — the non-emptiness invariant does
not hold for every external mapping. -/
theorem plan_nonempty_counterexample :
    (generate_launch_plan demo_form (some demo_empty_leaf_ext) (fun _ => "advice")
        AIOutcome.exn AIOutcome.exn AIOutcome.exn).map
      (fun p => p.recommended_strategies) = Except.ok (JVal.list []) ∧
    (generate_launch_plan demo_form (some demo_empty_leaf_ext) (fun _ => "advice")
        AIOutcome.exn AIOutcome.exn AIOutcome.exn).map
      (fun p => truthy p.recommended_strategies) = Except.ok false :=
  ⟨rfl, rfl⟩

/-- C5 as amended: for every form and every external mapping whose
reachable leaves are non-empty (in particular when no external mapping
is supplied), any plan `generate_launch_plan` returns has non-empty
`recommended_strategies` and non-empty `next_steps`: every static or
default resolution path ends in a non-empty list, and the AI step
preserves non-emptiness. -/
theorem plan_lists_nonempty (form_data : FormData) (ext : Option PyDict)
    (canned : String → String) (ai_messaging : AIOutcome String)
    (ai_strategies ai_steps : AIOutcome JVal) (p : Plan)
    (hs : ext_side leaves3 ext "launch_strategies" = true)
    (hn : ext_side leaves3 ext "next_steps" = true)
    (hp : generate_launch_plan form_data ext canned ai_messaging ai_strategies ai_steps =
      Except.ok p) :
    truthy p.recommended_strategies = true ∧ truthy p.next_steps = true := by
  unfold generate_launch_plan at hp
  cases hgs : get_standard_strategies form_data.launch_type form_data.funding_status
      form_data.primary_goal ext with
  | error e => simp only [hgs] at hp; cases hp
  | ok v =>
    simp only [hgs] at hp
    cases hgn : get_standard_next_steps form_data.funding_status form_data.audience_readiness
        form_data.post_launch_priority ext with
    | error e => simp only [hgn] at hp; cases hp
    | ok w =>
      simp only [hgn] at hp
      cases hp
      exact ⟨generate_ai_strategies_truthy (get_standard_strategies_ok_truthy hs hgs),
        generate_ai_next_steps_truthy (get_standard_next_steps_ok_truthy hn hgn)⟩

theorem plan_lists_nonempty_witness :
    truthy demo_plan.recommended_strategies = true ∧ truthy demo_plan.next_steps = true :=
  plan_lists_nonempty demo_form none (fun _ => "advice") AIOutcome.exn
    AIOutcome.timeout AIOutcome.timeout demo_plan rfl rfl rfl

